import Mathlib

/- Shallow embedding of src/AItest.tsx: a single React chat component that
   forwards user text to an external generative-language client, with an
   optimistic-append dispatcher, localStorage key persistence, and a
   typewriter-style reveal of the latest model message. -/

namespace AItest

/-- A message part, as in the Gemini chat types of the source (`Part`). -/
structure Part where
  text : String
deriving DecidableEq, Repr

/-- Message author role (`"user" | "model"`). -/
inductive Role where
  | user
  | model
deriving DecidableEq, Repr

/-- A chat message (`ChatMsg`): role plus parts array. -/
structure ChatMsg where
  role : Role
  parts : List Part
deriving DecidableEq, Repr

/-- A persona entry of the component's `roles` array: id, display name and
the system-style preamble `prompt`. -/
structure RoleDef where
  id : String
  name : String
  prompt : String
deriving DecidableEq, Repr

/-- The three personas declared in the component (lines 35-39). -/
def roles : List RoleDef :=
  [⟨"coffee", "☕ 咖啡達人", "你是一位台北咖啡達人，熟悉各家風格與氣氛，回答時請用專業但溫和的語氣。"⟩,
   ⟨"mentor", "💼 面試顧問", "你是一位面試顧問，擅長給出具體建議，並教導我如何變得更好。"⟩,
   ⟨"coach", "🧘‍♀️ 人生教練", "你是溫暖的教練，回答時要適當給予情緒鼓勵與支持。"⟩]

/-- The component state touched by `sendMessage`: conversation history, the
input buffer, the loading flag and the error slot. -/
structure ChatState where
  history : List ChatMsg
  input : String
  loading : Bool
  error : String
deriving DecidableEq, Repr

/-- JavaScript `String.prototype.trim`: strip leading and trailing
whitespace. -/
def jsTrim (s : String) : String :=
  ⟨((s.data.dropWhile Char.isWhitespace).reverse.dropWhile Char.isWhitespace).reverse⟩

/-- The `useMemo` building the external client (lines 28-34): the client is
non-null iff the key is non-empty (JS truthiness of `apiKey`) and the
constructor does not throw (`ctorOk`). -/
def aiOf (apiKey : String) (ctorOk : Bool) : Bool :=
  if apiKey = "" then false else ctorOk

/-- Result of the external `generateContent` call: success carries the
optional `resp.text`; failure carries the thrown value's optional
`.message` field and its string form `String(err)`. -/
inductive ApiOutcome where
  | success (respText : Option String)
  | failure (message : Option String) (strForm : String)
deriving DecidableEq, Repr

/-- JS `err?.message || String(err)` (line 111): the message when truthy,
otherwise the string form. -/
def errOf (message : Option String) (strForm : String) : String :=
  match message with
  | some m => if m = "" then strForm else m
  | none => strForm

/-- JS `resp.text || '[No content]'` (line 108): the returned text when
truthy, otherwise the literal placeholder. -/
def replyOf (respText : Option String) : String :=
  match respText with
  | some t => if t = "" then "[No content]" else t
  | none => "[No content]"

/-- The user-visible error shown when the client is missing (line 95). -/
def keyErrorText : String := "請先輸入有效的 Gemini API Key"

/-- Shallow embedding of `sendMessage` (lines 91-115). `rolePrompt` is the
selected persona's preamble, `message` the optional override argument,
`hasAi` whether the memoised client is non-null, and `outcome` what the
external call does if issued. Returns the new state together with the
request contents sent to the API (`none` when no request is issued). -/
def sendMessage (st : ChatState) (rolePrompt : String) (message : Option String)
    (hasAi : Bool) (outcome : ApiOutcome) : ChatState × Option (List ChatMsg) :=
  let content := rolePrompt ++ "\n\n" ++ jsTrim (message.getD st.input)
  if content = "" ∨ st.loading = true then (st, none)
  else if hasAi = false then ({ st with error := keyErrorText }, none)
  else
    let newHistory := st.history ++ [⟨Role.user, [⟨content⟩]⟩]
    match outcome with
    | ApiOutcome.success respText =>
      ({ history := newHistory ++ [⟨Role.model, [⟨replyOf respText⟩]⟩],
         input := "", loading := false, error := "" }, some newHistory)
    | ApiOutcome.failure msg strForm =>
      ({ history := newHistory, input := "", loading := false,
         error := errOf msg strForm }, some newHistory)

/-- The submit button's `disabled` condition (line 246):
`loading || !input.trim() || !apiKey`. -/
def submitDisabled (loading : Bool) (input apiKey : String) : Bool :=
  loading || (jsTrim input = "") || (apiKey = "")

/-- State of the API-key persistence surface: the key field, the remember
checkbox, and the localStorage slot `gemini_api_key`. -/
structure KeyState where
  apiKey : String
  rememberKey : Bool
  storage : Option String
deriving DecidableEq, Repr

/-- onChange of the API-key field (lines 170-173): set the key; write it to
storage only when `rememberKey` is on. -/
def onKeyChange (s : KeyState) (v : String) : KeyState :=
  { s with apiKey := v, storage := if s.rememberKey then some v else s.storage }

/-- onChange of the remember checkbox (lines 178-182): unchecking removes
the stored key; checking writes the current key when it is non-empty. -/
def onToggleRemember (s : KeyState) (checked : Bool) : KeyState :=
  { s with
    rememberKey := checked
    storage := if checked = false then none
               else if s.apiKey = "" then s.storage else some s.apiKey }

/-- The canned greeting text (line 50). -/
def greetingText : String := "👋 這裡是 Gemini 小幫手，有什麼想聊的？"

/-- The history installed by the mount effect (lines 48-53). -/
def initHistory : List ChatMsg := [⟨Role.model, [⟨greetingText⟩]⟩]

/-- The apiKey after the storage-loading effect (lines 43-46):
`const saved = localStorage.getItem(...); if (saved) setApiKey(saved)`,
starting from the initial `""`. -/
def initApiKey (saved : Option String) : String :=
  match saved with
  | some s => if s = "" then "" else s
  | none => ""

/-- JS `text.slice(0, i)`: the prefix of length `i`. -/
def slice (text : String) (i : Nat) : String := ⟨text.data.take i⟩

/-- One full run of the reveal interval (lines 66-72): starting from cursor
`i`, each tick records `text.slice(0, i)` then increments the cursor and
stops once it exceeds the text length. Fuel-indexed to make the recursion
structural; `revealRun` supplies enough fuel for the whole cycle. -/
def revealLoop (text : String) (i : Nat) : Nat → List String
  | 0 => []
  | fuel + 1 =>
    if i + 1 > text.length then [slice text i]
    else slice text i :: revealLoop text (i + 1) fuel

/-- The sequence of displayed-text values over one reveal cycle, cursor
starting at 0. -/
def revealRun (text : String) : List String := revealLoop text 0 (text.length + 1)

/-- One successful send: `sendMessage` with override `sd.1` and API text
`sd.2`, client available. -/
def sendSucc (p : String) (st : ChatState) (sd : Option String × Option String) : ChatState :=
  (sendMessage st p sd.1 true (ApiOutcome.success sd.2)).1

/-- A sequence of successful sends, in order. -/
def runSends (p : String) (st : ChatState) (sends : List (Option String × Option String)) :
    ChatState :=
  sends.foldl (sendSucc p) st

/-- The composed contents of a sequence of sends starting from input buffer
`input` (the buffer is cleared by each dispatch, so later sends with no
override compose from `""`). -/
def sentContents (p : String) : String → List (Option String × Option String) → List String
  | _, [] => []
  | input, sd :: rest =>
    (p ++ "\n\n" ++ jsTrim (sd.1.getD input)) :: sentContents p "" rest

/-- All messages of a history have a parts array of length one. -/
def partsWF (h : List ChatMsg) : Prop := ∀ mm ∈ h, mm.parts.length = 1

example : jsTrim "  hi " = "hi" := by decide
example : jsTrim "   " = "" := by decide
example : revealRun "ab" = ["", "a", "ab"] := by decide
example : replyOf (some "") = "[No content]" := by decide

/-- The composed content always contains the blank-line separator, so the
emptiness guard of line 93 can never fire. -/
theorem composed_ne_empty (p x : String) : p ++ "\n\n" ++ x ≠ "" := by
  intro h
  have h1 := congrArg String.length h
  rw [String.length_append, String.length_append] at h1
  have h2 : String.length "\n\n" = 2 := rfl
  rw [h2] at h1
  simp at h1

/-- Evaluation of a dispatched send whose API call succeeds. -/
theorem sendMessage_success_eq (st : ChatState) (p : String) (m : Option String)
    (r : Option String) (hl : st.loading = false) :
    sendMessage st p m true (ApiOutcome.success r) =
      (⟨st.history ++ [⟨Role.user, [⟨p ++ "\n\n" ++ jsTrim (m.getD st.input)⟩]⟩,
          ⟨Role.model, [⟨replyOf r⟩]⟩], "", false, ""⟩,
       some (st.history ++ [⟨Role.user, [⟨p ++ "\n\n" ++ jsTrim (m.getD st.input)⟩]⟩])) := by
  have hne := composed_ne_empty p (jsTrim (m.getD st.input))
  simp [sendMessage, hl, hne]

/-- Evaluation of a dispatched send whose API call throws. -/
theorem sendMessage_failure_eq (st : ChatState) (p : String) (m : Option String)
    (msg : Option String) (strForm : String) (hl : st.loading = false) :
    sendMessage st p m true (ApiOutcome.failure msg strForm) =
      (⟨st.history ++ [⟨Role.user, [⟨p ++ "\n\n" ++ jsTrim (m.getD st.input)⟩]⟩],
        "", false, errOf msg strForm⟩,
       some (st.history ++ [⟨Role.user, [⟨p ++ "\n\n" ++ jsTrim (m.getD st.input)⟩]⟩])) := by
  have hne := composed_ne_empty p (jsTrim (m.getD st.input))
  simp [sendMessage, hl, hne]

/-- A not-loading state with the initial greeting and a non-empty input. -/
def sampleState : ChatState := ⟨initHistory, "hello", false, ""⟩

/-- A state with a request in flight. -/
def loadingState : ChatState := ⟨initHistory, "hello", true, ""⟩

/-- A state whose input buffer trims to empty. -/
def emptyInputState : ChatState := ⟨initHistory, "   ", false, ""⟩

/-- Claim C1 (divergence witness): with the coffee persona selected, a
non-loading state, a constructible client and an input buffer that trims to
empty, `sendMessage` is NOT a no-op: it issues a request whose final user
message carries just the persona preamble and the blank-line separator, and
it appends that user message (and the model reply) to history. The guard at
line 93 tests the content after the preamble was prepended, so it never
fires on empty input. -/
theorem claim1_empty_input_dispatches :
    (sendMessage emptyInputState (roles.headD ⟨"", "", ""⟩).prompt none true
        (ApiOutcome.success (some "ok"))).2 =
      some (initHistory ++
        [⟨Role.user, [⟨(roles.headD ⟨"", "", ""⟩).prompt ++ "\n\n"⟩]⟩]) ∧
    (sendMessage emptyInputState (roles.headD ⟨"", "", ""⟩).prompt none true
        (ApiOutcome.success (some "ok"))).1.history.length =
      emptyInputState.history.length + 2 := by
  constructor
  · rfl
  · rfl

/-- Claim C2: if no API key is configured the memoised client is null, and
`sendMessage` sets the user-visible key error and returns before any other
state change: history, loading and the input buffer are unchanged and no
request is issued. -/
theorem claim2_missing_key_no_append (st : ChatState) (p : String) (m : Option String)
    (o : ApiOutcome) (ctorOk : Bool) (hl : st.loading = false) :
    (sendMessage st p m (aiOf "" ctorOk) o).1.history = st.history ∧
    (sendMessage st p m (aiOf "" ctorOk) o).1.loading = false ∧
    (sendMessage st p m (aiOf "" ctorOk) o).1.input = st.input ∧
    (sendMessage st p m (aiOf "" ctorOk) o).1.error = keyErrorText ∧
    (sendMessage st p m (aiOf "" ctorOk) o).2 = none := by
  have hne := composed_ne_empty p (jsTrim (m.getD st.input))
  simp [sendMessage, aiOf, hl, hne]

/-- Witness for C2 at a concrete state. -/
theorem claim2_missing_key_no_append_witness :
    sampleState.loading = false ∧
    ((sendMessage sampleState "p" none (aiOf "" true) (ApiOutcome.success none)).1.history =
        sampleState.history ∧
      (sendMessage sampleState "p" none (aiOf "" true) (ApiOutcome.success none)).1.loading =
        false ∧
      (sendMessage sampleState "p" none (aiOf "" true) (ApiOutcome.success none)).1.input =
        sampleState.input ∧
      (sendMessage sampleState "p" none (aiOf "" true) (ApiOutcome.success none)).1.error =
        keyErrorText ∧
      (sendMessage sampleState "p" none (aiOf "" true) (ApiOutcome.success none)).2 = none) :=
  ⟨rfl, claim2_missing_key_no_append sampleState "p" none (ApiOutcome.success none) true rfl⟩

/-- Claim C4: while loading is true, `sendMessage` is a no-op regardless of
its input: the whole state, history, error, input and loading included, is
returned unchanged and no request is issued; and the submit control is
disabled. -/
theorem claim4_loading_noop (st : ChatState) (p : String) (m : Option String)
    (hasAi : Bool) (o : ApiOutcome) (hl : st.loading = true) :
    sendMessage st p m hasAi o = (st, none) ∧
    ∀ inp k, submitDisabled st.loading inp k = true := by
  constructor
  · simp [sendMessage, hl]
  · intro inp k
    simp [submitDisabled, hl]

/-- Witness for C4 at a concrete loading state. -/
theorem claim4_loading_noop_witness :
    loadingState.loading = true ∧
    (sendMessage loadingState "p" none true (ApiOutcome.success none) = (loadingState, none) ∧
      ∀ inp k, submitDisabled loadingState.loading inp k = true) :=
  ⟨rfl, claim4_loading_noop loadingState "p" none true (ApiOutcome.success none) rfl⟩

/-- The error slot computed on failure is non-empty as soon as the thrown
value's string form is. -/
theorem errOf_ne_empty (msg : Option String) (strForm : String) (hs : strForm ≠ "") :
    errOf msg strForm ≠ "" := by
  cases msg with
  | none => simpa [errOf] using hs
  | some mm =>
    by_cases hmm : mm = "" <;> simp [errOf, hmm, hs]

/-- Claim C3: when the external call of a dispatched send throws, exactly
the optimistic user message is appended (no model message, no rollback),
the error slot holds the failure's message or its string form and is
non-empty, and loading is false afterwards; the request was issued. -/
theorem claim3_failure_keeps_user_message (st : ChatState) (p : String) (m : Option String)
    (msg : Option String) (strForm : String) (hl : st.loading = false) (hs : strForm ≠ "") :
    (sendMessage st p m true (ApiOutcome.failure msg strForm)).1.history =
      st.history ++ [⟨Role.user, [⟨p ++ "\n\n" ++ jsTrim (m.getD st.input)⟩]⟩] ∧
    (sendMessage st p m true (ApiOutcome.failure msg strForm)).1.error = errOf msg strForm ∧
    (sendMessage st p m true (ApiOutcome.failure msg strForm)).1.error ≠ "" ∧
    (sendMessage st p m true (ApiOutcome.failure msg strForm)).1.loading = false ∧
    (sendMessage st p m true (ApiOutcome.failure msg strForm)).2 ≠ none := by
  rw [sendMessage_failure_eq st p m msg strForm hl]
  exact ⟨rfl, rfl, errOf_ne_empty msg strForm hs, rfl, by simp⟩

/-- Witness for C3 at a concrete failing call. -/
theorem claim3_failure_keeps_user_message_witness :
    sampleState.loading = false ∧ "Error: quota exceeded" ≠ "" ∧
    ((sendMessage sampleState "p" none true
          (ApiOutcome.failure (some "quota exceeded") "Error: quota exceeded")).1.history =
        sampleState.history ++
          [⟨Role.user, [⟨"p" ++ "\n\n" ++ jsTrim ((none : Option String).getD sampleState.input)⟩]⟩] ∧
      (sendMessage sampleState "p" none true
          (ApiOutcome.failure (some "quota exceeded") "Error: quota exceeded")).1.error =
        errOf (some "quota exceeded") "Error: quota exceeded" ∧
      (sendMessage sampleState "p" none true
          (ApiOutcome.failure (some "quota exceeded") "Error: quota exceeded")).1.error ≠ "" ∧
      (sendMessage sampleState "p" none true
          (ApiOutcome.failure (some "quota exceeded") "Error: quota exceeded")).1.loading = false ∧
      (sendMessage sampleState "p" none true
          (ApiOutcome.failure (some "quota exceeded") "Error: quota exceeded")).2 ≠ none) :=
  ⟨rfl, by decide,
    claim3_failure_keeps_user_message sampleState "p" none (some "quota exceeded")
      "Error: quota exceeded" rfl (by decide)⟩

/-- Claim C6: every dispatched send both appends to history and sends to
the API a user message whose content is the persona preamble, a blank line,
then the trimmed input text (the override when given, else the buffer). -/
theorem claim6_composed_content (st : ChatState) (p : String) (m : Option String)
    (o : ApiOutcome) (hl : st.loading = false) :
    (sendMessage st p m true o).2 =
      some (st.history ++ [⟨Role.user, [⟨p ++ "\n\n" ++ jsTrim (m.getD st.input)⟩]⟩]) ∧
    ∃ rest, (sendMessage st p m true o).1.history =
      st.history ++ ⟨Role.user, [⟨p ++ "\n\n" ++ jsTrim (m.getD st.input)⟩]⟩ :: rest := by
  cases o with
  | success r =>
    rw [sendMessage_success_eq st p m r hl]
    exact ⟨rfl, [⟨Role.model, [⟨replyOf r⟩]⟩], rfl⟩
  | failure msg strForm =>
    rw [sendMessage_failure_eq st p m msg strForm hl]
    exact ⟨rfl, [], rfl⟩

/-- Witness for C6 with an override argument. -/
theorem claim6_composed_content_witness :
    sampleState.loading = false ∧
    ((sendMessage sampleState "p" (some " hi ") true (ApiOutcome.success (some "ok"))).2 =
        some (sampleState.history ++
          [⟨Role.user, [⟨"p" ++ "\n\n" ++ jsTrim ((some " hi ").getD sampleState.input)⟩]⟩]) ∧
      ∃ rest, (sendMessage sampleState "p" (some " hi ") true
          (ApiOutcome.success (some "ok"))).1.history =
        sampleState.history ++
          ⟨Role.user, [⟨"p" ++ "\n\n" ++ jsTrim ((some " hi ").getD sampleState.input)⟩]⟩ :: rest) :=
  ⟨rfl, claim6_composed_content sampleState "p" (some " hi ") (ApiOutcome.success (some "ok")) rfl⟩

/-- Evaluation of one successful send step. -/
theorem sendSucc_eq (p : String) (st : ChatState) (sd : Option String × Option String)
    (hl : st.loading = false) :
    sendSucc p st sd =
      ⟨st.history ++ [⟨Role.user, [⟨p ++ "\n\n" ++ jsTrim (sd.1.getD st.input)⟩]⟩,
          ⟨Role.model, [⟨replyOf sd.2⟩]⟩], "", false, ""⟩ := by
  unfold sendSucc
  rw [sendMessage_success_eq st p sd.1 sd.2 hl]

/-- State after a sequence of successful sends: loading is cleared, and the
history extends the old one with one user/model pair per send, in order. -/
theorem runSends_spec (p : String) :
    ∀ (sends : List (Option String × Option String)) (st : ChatState),
      st.loading = false →
      (runSends p st sends).loading = false ∧
      (runSends p st sends).history = st.history ++
        (((sentContents p st.input sends).zip (sends.map fun sd => replyOf sd.2)).map
          (fun pr => [ChatMsg.mk Role.user [Part.mk pr.1],
                      ChatMsg.mk Role.model [Part.mk pr.2]])).flatten ∧
      (runSends p st sends).history.length = st.history.length + 2 * sends.length := by
  intro sends
  induction sends with
  | nil =>
    intro st hl
    exact ⟨hl, by simp [runSends, sentContents], by simp [runSends]⟩
  | cons sd rest ih =>
    intro st hl
    have hstep := sendSucc_eq p st sd hl
    have h2 := ih (sendSucc p st sd) (by rw [hstep])
    have hr : runSends p st (sd :: rest) = runSends p (sendSucc p st sd) rest := rfl
    refine ⟨?_, ?_, ?_⟩
    · rw [hr]
      exact h2.1
    · rw [hr, h2.2.1, hstep]
      simp [sentContents, List.append_assoc]
    · rw [hr, h2.2.2, hstep]
      simp [List.length_append]
      omega

/-- Claim C5: for any sequence of successful sends from a non-loading
state, the history grows by exactly two messages per send, and the new part
is, in send order, one user message followed by one model message whose
text is the API's returned text or the literal placeholder. -/
theorem claim5_success_sends (p : String) (sends : List (Option String × Option String))
    (st : ChatState) (hl : st.loading = false) :
    (runSends p st sends).history.length = st.history.length + 2 * sends.length ∧
    (runSends p st sends).history = st.history ++
      (((sentContents p st.input sends).zip (sends.map fun sd => replyOf sd.2)).map
        (fun pr => [ChatMsg.mk Role.user [Part.mk pr.1],
                    ChatMsg.mk Role.model [Part.mk pr.2]])).flatten :=
  ⟨(runSends_spec p sends st hl).2.2, (runSends_spec p sends st hl).2.1⟩

/-- Witness for C5: two successful sends from the sample state. -/
theorem claim5_success_sends_witness :
    sampleState.loading = false ∧
    ((runSends "p" sampleState [(some "hi", some "yo"), (none, none)]).history.length =
        sampleState.history.length + 2 * [(some "hi", some "yo"), ((none : Option String), (none : Option String))].length ∧
      (runSends "p" sampleState [(some "hi", some "yo"), (none, none)]).history =
        sampleState.history ++
          (((sentContents "p" sampleState.input [(some "hi", some "yo"), (none, none)]).zip
            ([(some "hi", some "yo"), ((none : Option String), (none : Option String))].map fun sd => replyOf sd.2)).map
            (fun pr => [ChatMsg.mk Role.user [Part.mk pr.1],
                        ChatMsg.mk Role.model [Part.mk pr.2]])).flatten) :=
  ⟨rfl, claim5_success_sends "p" [(some "hi", some "yo"), (none, none)] sampleState rfl⟩

/-- Key changes never flip the checkbox, and while it is off they never
write to storage. -/
theorem foldl_onKeyChange_off :
    ∀ (vs : List String) (s : KeyState), s.rememberKey = false →
      (vs.foldl onKeyChange s).storage = s.storage ∧
      (vs.foldl onKeyChange s).rememberKey = false := by
  intro vs
  induction vs with
  | nil =>
    intro s h
    exact ⟨rfl, h⟩
  | cons v rest ih =>
    intro s h
    have hstep : onKeyChange s v = { s with apiKey := v } := by
      simp [onKeyChange, h]
    have hrec := ih (onKeyChange s v) (by rw [hstep]; exact h)
    rw [List.foldl_cons] at *
    refine ⟨?_, hrec.2⟩
    rw [hrec.1, hstep]

/-- Claim C7: unchecking rememberKey erases the stored key; key changes
while it stays off never write to storage (so a new key after the toggle
leaves storage empty); and while it is on, every key change writes the new
key. -/
theorem claim7_remember_key (s : KeyState) (v : String) (vs : List String) :
    (onToggleRemember s false).storage = none ∧
    (s.rememberKey = false → (vs.foldl onKeyChange s).storage = s.storage) ∧
    (s.rememberKey = true → (onKeyChange s v).storage = some v) ∧
    (vs.foldl onKeyChange (onToggleRemember s false)).storage = none := by
  refine ⟨by simp [onToggleRemember], fun h => (foldl_onKeyChange_off vs s h).1,
    fun h => by simp [onKeyChange, h], ?_⟩
  have h := foldl_onKeyChange_off vs (onToggleRemember s false) (by simp [onToggleRemember])
  rw [h.1]
  simp [onToggleRemember]

/-- A key state with a remembered key in storage. -/
def keySample : KeyState := ⟨"k1", true, some "k1"⟩

/-- Witness for C7 at a concrete key state and key changes. -/
theorem claim7_remember_key_witness :
    (onToggleRemember keySample false).storage = none ∧
    (keySample.rememberKey = false →
      ((["k2", "k3"] : List String).foldl onKeyChange keySample).storage = keySample.storage) ∧
    (keySample.rememberKey = true → (onKeyChange keySample "k2").storage = some "k2") ∧
    ((["k2", "k3"] : List String).foldl onKeyChange (onToggleRemember keySample false)).storage =
      none :=
  claim7_remember_key keySample "k2" ["k2", "k3"]

theorem slice_zero (text : String) : slice text 0 = "" := rfl

theorem slice_length (text : String) (i : Nat) :
    (slice text i).length = min i text.length := by
  show (text.data.take i).length = min i text.length
  rw [List.length_take]
  rfl

theorem slice_full (text : String) : slice text text.length = text := by
  cases text with
  | mk data => simp [slice, String.length, List.take_length]

/-- Unrolling of the reveal interval: from cursor `i` with `n` characters
left, the recorded displays are the prefixes at cursors `i, i+1, ..., i+n`. -/
theorem revealLoop_eq (text : String) :
    ∀ (n i : Nat), text.length = i + n →
      revealLoop text i (n + 1) = (List.range (n + 1)).map (fun k => slice text (i + k)) := by
  intro n
  induction n with
  | zero =>
    intro i h
    have hc : i + 1 > text.length := by omega
    simp [revealLoop, hc, List.range_succ]
  | succ n ih =>
    intro i h
    have hc : ¬ (i + 1 > text.length) := by omega
    rw [revealLoop, if_neg hc, ih (i + 1) (by omega), List.range_succ_eq_map (n + 1)]
    simp only [List.map_cons, List.map_map, Nat.add_zero]
    refine congrArg₂ List.cons rfl ?_
    refine List.map_congr_left ?_
    intro a _
    simp only [Function.comp]
    congr 1
    omega

/-- The whole reveal cycle records exactly the prefixes of lengths
`0, 1, ..., text.length`. -/
theorem revealRun_eq (text : String) :
    revealRun text = (List.range (text.length + 1)).map (slice text) := by
  rw [revealRun, revealLoop_eq text text.length 0 (by omega)]
  refine List.map_congr_left ?_
  intro a _
  rw [Nat.zero_add]

/-- Claim C8: over one reveal cycle for a message text of length n, the
displayed buffer starts at the empty prefix, its length is monotonically
non-decreasing tick by tick, the cycle performs exactly n+1 ticks (the
timer stops once the cursor exceeds n), and the final displayed value is
the full text. -/
theorem claim8_reveal_cycle (text : String) :
    (revealRun text).head? = some "" ∧
    List.Chain' (fun a b => a.length ≤ b.length) (revealRun text) ∧
    (revealRun text).getLast? = some text ∧
    (revealRun text).length = text.length + 1 := by
  refine ⟨?_, ?_, ?_, ?_⟩ <;> rw [revealRun_eq]
  · rw [List.range_succ_eq_map]
    simp [slice_zero]
  · rw [List.chain'_map, List.chain'_range_succ]
    intro m _
    rw [slice_length, slice_length]
    omega
  · rw [List.range_succ, List.map_append]
    simp [slice_full]
  · simp

/-- Claim C9: on initialization the conversation holds exactly one message,
the canned greeting with the model role; and the key-loading effect
pre-fills the apiKey with whatever key was saved in storage (the empty
field when none was). -/
theorem claim9_init_state :
    initHistory.length = 1 ∧
    initHistory = [⟨Role.model, [⟨greetingText⟩]⟩] ∧
    (∀ s, initApiKey (some s) = s) ∧
    initApiKey none = "" := by
  refine ⟨rfl, rfl, ?_, rfl⟩
  intro s
  by_cases h : s = "" <;> simp [initApiKey, h]

/-- `sendMessage` either leaves history alone or appends one user message,
optionally followed by one model message. -/
theorem sendMessage_history_cases (st : ChatState) (p : String) (m : Option String)
    (hasAi : Bool) (o : ApiOutcome) :
    (sendMessage st p m hasAi o).1.history = st.history ∨
    (∃ u, (sendMessage st p m hasAi o).1.history =
      st.history ++ [⟨Role.user, [⟨u⟩]⟩]) ∨
    (∃ u r, (sendMessage st p m hasAi o).1.history =
      st.history ++ [⟨Role.user, [⟨u⟩]⟩, ⟨Role.model, [⟨r⟩]⟩]) := by
  by_cases h1 : p ++ "\n\n" ++ jsTrim (m.getD st.input) = "" ∨ st.loading = true
  · left
    simp [sendMessage, h1]
  · by_cases h2 : hasAi = false
    · left
      simp [sendMessage, h1, h2]
    · cases o with
      | success r =>
        right; right
        refine ⟨p ++ "\n\n" ++ jsTrim (m.getD st.input), replyOf r, ?_⟩
        simp [sendMessage, h1, h2, List.append_assoc]
      | failure msg sf =>
        right; left
        refine ⟨p ++ "\n\n" ++ jsTrim (m.getD st.input), ?_⟩
        simp [sendMessage, h1, h2]

/-- Claim C10: every message ever placed in history has a parts array with
exactly one element — true of the initial greeting and preserved by every
`sendMessage` transition — so reading the last message's first part never
reads a missing element. -/
theorem claim10_parts_singleton (st : ChatState) (p : String) (m : Option String)
    (hasAi : Bool) (o : ApiOutcome) (hw : partsWF st.history) :
    partsWF initHistory ∧
    partsWF (sendMessage st p m hasAi o).1.history ∧
    ∀ lastm, (sendMessage st p m hasAi o).1.history.getLast? = some lastm →
      lastm.parts.length = 1 := by
  have hpres : partsWF (sendMessage st p m hasAi o).1.history := by
    rcases sendMessage_history_cases st p m hasAi o with h | ⟨u, h⟩ | ⟨u, r, h⟩ <;> rw [h]
    · exact hw
    · intro mm hmm
      rcases List.mem_append.mp hmm with hmem | hmem
      · exact hw mm hmem
      · simp at hmem
        simp [hmem]
    · intro mm hmm
      rcases List.mem_append.mp hmm with hmem | hmem
      · exact hw mm hmem
      · rcases List.mem_cons.mp hmem with hmm2 | hmm2
        · simp [hmm2]
        · simp at hmm2
          simp [hmm2]
  refine ⟨?_, hpres, ?_⟩
  · intro mm hmm
    simp [initHistory] at hmm
    simp [hmm]
  · intro lastm hlast
    obtain ⟨hne, heq⟩ := List.mem_getLast?_eq_getLast hlast
    rw [heq]
    exact hpres _ (List.getLast_mem hne)

/-- Witness for C10 at the sample state. -/
theorem claim10_parts_singleton_witness :
    partsWF sampleState.history ∧
    (partsWF initHistory ∧
      partsWF (sendMessage sampleState "p" none true (ApiOutcome.success (some "ok"))).1.history ∧
      ∀ lastm, (sendMessage sampleState "p" none true
          (ApiOutcome.success (some "ok"))).1.history.getLast? = some lastm →
        lastm.parts.length = 1) :=
  ⟨by intro mm hmm; simp [sampleState, initHistory] at hmm; simp [hmm],
    claim10_parts_singleton sampleState "p" none true (ApiOutcome.success (some "ok"))
      (by intro mm hmm; simp [sampleState, initHistory] at hmm; simp [hmm])⟩

end AItest
